import Mathlib

/-!
# Verification of the streamgit repository-analytics core

A shallow embedding of the core logic of the streamgit tool
(`app/github_repo_manager.py`, `app/cli.py`) together with proofs about the
specified properties: statistics invariants, adapter state transitions after
create/delete, request-field construction, export-path rewriting, commit
fetching, filename generation, recent-repository listing, starred-repository
projection, and the CLI list command.

Conventions of the embedding:
* Python objects returned by the hosting-platform client become Lean
  structures (`Repo`, `Commit`); nullable fields become `Option`.
* Python machine integers are unbounded, so counts are `Nat`.
* Fallible calls (the client raising `GithubException`) are `Except` values.
* Python string truthiness (`x or y`, `if x:`) is modelled explicitly:
  `None` and the empty string are falsy.
* `sorted(xs, key=..., reverse=True)` is a stable descending sort, modelled
  by `List.insertionSort` with the non-strict descending relation (which is
  stable: equal keys keep their original relative order).
-/

/-- A repository record as surfaced by the hosting-platform client
(`repo.name`, `repo.owner.login`, `repo.private`, `repo.fork`,
`repo.archived`, `repo.language`, `repo.stargazers_count`,
`repo.forks_count`, `repo.updated_at`, `repo.html_url`,
`repo.description`).  The Python attribute `private` is spelled `priv`
because `private` is a Lean keyword; `updated_at` is an abstract timestamp
encoded as a `Nat`. -/
structure Repo where
  name : String
  owner_login : String
  priv : Bool
  fork : Bool
  archived : Bool
  language : Option String
  stargazers_count : Nat
  forks_count : Nat
  updated_at : Nat
  html_url : String
  description : Option String
deriving DecidableEq, Repr

/-- The nine counts returned by `GithubRepoManager.get_repo_stats`
(the dictionary keys "Total Repositories", "Owned by ...", "Forked",
"Non-fork", "Archived", "Non-archived", "Public", "Private",
"From Organizations"). -/
structure RepoStats where
  total_count : Nat
  owned_count : Nat
  fork_count : Nat
  non_fork_count : Nat
  archived_count : Nat
  non_archived_count : Nat
  public_count : Nat
  private_count : Nat
  org_count : Nat
deriving DecidableEq, Repr

/-- Embedding of `GithubRepoManager.get_repo_stats`
(`app/github_repo_manager.py`, lines 57-80): single pass of list
comprehensions over `self.all_repos`, with the complement counts obtained
by subtraction exactly as in the source. -/
def get_repo_stats (all_repos : List Repo) (user_login : String) : RepoStats :=
  let total_count := all_repos.length
  let fork_count := (all_repos.filter (fun r => r.fork)).length
  let non_fork_count := total_count - fork_count
  let archived_count := (all_repos.filter (fun r => r.archived)).length
  let non_archived_count := total_count - archived_count
  let public_count := (all_repos.filter (fun r => !r.priv)).length
  let private_count := (all_repos.filter (fun r => r.priv)).length
  let org_count := (all_repos.filter (fun r => r.owner_login != user_login)).length
  let owned_count := total_count - org_count
  { total_count := total_count
    owned_count := owned_count
    fork_count := fork_count
    non_fork_count := non_fork_count
    archived_count := archived_count
    non_archived_count := non_archived_count
    public_count := public_count
    private_count := private_count
    org_count := org_count }

/-- Filtering by a predicate and by its negation splits the length. -/
theorem length_filter_add_length_filter_not (l : List Repo) (p : Repo → Bool) :
    (l.filter p).length + (l.filter (fun r => !p r)).length = l.length := by
  have h := List.filter_append_perm p l
  have := h.length_eq
  simpa [List.length_append] using this

/-- C1: the four sum invariants of the statistics snapshot, and owned-by-user
means the owner login equals the identity login. -/
theorem get_repo_stats_sum_invariants (repos : List Repo) (login : String) :
    (get_repo_stats repos login).owned_count + (get_repo_stats repos login).org_count
        = (get_repo_stats repos login).total_count ∧
    (get_repo_stats repos login).public_count + (get_repo_stats repos login).private_count
        = (get_repo_stats repos login).total_count ∧
    (get_repo_stats repos login).fork_count + (get_repo_stats repos login).non_fork_count
        = (get_repo_stats repos login).total_count ∧
    (get_repo_stats repos login).archived_count + (get_repo_stats repos login).non_archived_count
        = (get_repo_stats repos login).total_count ∧
    (get_repo_stats repos login).owned_count
        = (repos.filter (fun r => r.owner_login == login)).length := by
  have horg : (repos.filter (fun r => r.owner_login != login)).length ≤ repos.length :=
    List.length_filter_le _ _
  have hfork : (repos.filter (fun r => r.fork)).length ≤ repos.length :=
    List.length_filter_le _ _
  have harch : (repos.filter (fun r => r.archived)).length ≤ repos.length :=
    List.length_filter_le _ _
  have hpub := length_filter_add_length_filter_not repos (fun r => r.priv)
  have howned := length_filter_add_length_filter_not repos (fun r => r.owner_login == login)
  have hbne : (repos.filter (fun r => r.owner_login != login))
      = (repos.filter (fun r => !(r.owner_login == login))) := by
    simp [bne]
  simp only [get_repo_stats]
  refine ⟨?_, ?_, ?_, ?_, ?_⟩ <;> rw [hbne] at * <;> omega

/-- The all-zero statistics snapshot. -/
def zeroStats : RepoStats :=
  { total_count := 0, owned_count := 0, fork_count := 0, non_fork_count := 0
    archived_count := 0, non_archived_count := 0, public_count := 0
    private_count := 0, org_count := 0 }

/-- C5: on the empty repository list every count is zero (the computation is
total, so no exception and no division can occur), and the snapshot is
invariant under permutation of the input list. -/
theorem get_repo_stats_empty_and_perm_invariant (login : String) :
    get_repo_stats [] login = zeroStats ∧
    ∀ l₁ l₂ : List Repo, l₁.Perm l₂ →
      get_repo_stats l₁ login = get_repo_stats l₂ login := by
  constructor
  · rfl
  · intro l₁ l₂ h
    have hlen := h.length_eq
    have hf := (h.filter (fun r => r.fork)).length_eq
    have ha := (h.filter (fun r => r.archived)).length_eq
    have hpu := (h.filter (fun r => !r.priv)).length_eq
    have hpr := (h.filter (fun r => r.priv)).length_eq
    have ho := (h.filter (fun r => r.owner_login != login)).length_eq
    simp only [get_repo_stats, RepoStats.mk.injEq]
    refine ⟨?_, ?_, ?_, ?_, ?_, ?_, ?_, ?_, ?_⟩ <;> omega

/-- Witness for C5 at concrete inputs: the empty list, and a two-element
permutation. -/
theorem get_repo_stats_empty_and_perm_invariant_witness :
    get_repo_stats [] "u" = zeroStats ∧
    get_repo_stats
        [{ name := "a", owner_login := "u", priv := false, fork := false,
           archived := false, language := none, stargazers_count := 0,
           forks_count := 0, updated_at := 1, html_url := "", description := none },
         { name := "b", owner_login := "v", priv := true, fork := true,
           archived := true, language := some "Python", stargazers_count := 3,
           forks_count := 1, updated_at := 2, html_url := "", description := none }] "u"
      = get_repo_stats
        [{ name := "b", owner_login := "v", priv := true, fork := true,
           archived := true, language := some "Python", stargazers_count := 3,
           forks_count := 1, updated_at := 2, html_url := "", description := none },
         { name := "a", owner_login := "u", priv := false, fork := false,
           archived := false, language := none, stargazers_count := 0,
           forks_count := 0, updated_at := 1, html_url := "", description := none }] "u" :=
  ⟨(get_repo_stats_empty_and_perm_invariant "u").1,
   (get_repo_stats_empty_and_perm_invariant "u").2 _ _ (List.Perm.swap _ _ [])⟩

/-! ## Commits and commit fetching (`get_repo_commits`) -/

/-- A commit record (`commit.commit.message`, author name/date, url),
per the data model. -/
structure Commit where
  repo_name : String
  message : String
  author_name : String
  author_date : Nat
  url : String
deriving DecidableEq, Repr

/-- A `GithubException` raised by the client, carrying the HTTP status. -/
structure GithubEx where
  status : Nat
deriving DecidableEq, Repr

/-- Embedding of `GithubRepoManager.get_repo_commits`
(`app/github_repo_manager.py`, lines 112-119): the underlying fetch of
`repo.get_commits()` is the input (a list most-recent-first, or a raised
`GithubException`); the method slices the first `limit` entries, turns a
status-409 failure (empty repository) into the empty list, and re-raises
every other failure unchanged. -/
def get_repo_commits (fetched : Except GithubEx (List Commit)) (limit : Nat) :
    Except GithubEx (List Commit) :=
  match fetched with
  | .ok commits => .ok (commits.take limit)
  | .error e => if e.status = 409 then .ok [] else .error e

/-- C6: a status-409 (empty repository) fetch failure yields the empty
sequence, not an error; every other failure propagates unchanged; a
successful fetch is truncated to `limit`. -/
theorem get_repo_commits_empty_repo_and_propagate
    (fetched : Except GithubEx (List Commit)) (limit : Nat) :
    (∀ e : GithubEx, fetched = .error e →
        (e.status = 409 → get_repo_commits fetched limit = .ok []) ∧
        (e.status ≠ 409 → get_repo_commits fetched limit = .error e)) ∧
    (∀ cs : List Commit, fetched = .ok cs →
        get_repo_commits fetched limit = .ok (cs.take limit)) := by
  constructor
  · rintro e rfl
    constructor
    · intro h409
      simp [get_repo_commits, h409]
    · intro hother
      simp [get_repo_commits, hother]
  · rintro cs rfl
    rfl

/-- Witness for C6 at concrete inputs: a 409 failure, a 500 failure and a
successful fetch. -/
theorem get_repo_commits_empty_repo_and_propagate_witness :
    get_repo_commits (.error ⟨409⟩) 5 = .ok [] ∧
    get_repo_commits (.error ⟨500⟩) 5 = .error ⟨500⟩ ∧
    get_repo_commits (.ok [⟨"r", "m", "a", 0, "u"⟩]) 0 = .ok [] :=
  ⟨((get_repo_commits_empty_repo_and_propagate (.error ⟨409⟩) 5).1 ⟨409⟩ rfl).1 rfl,
   ((get_repo_commits_empty_repo_and_propagate (.error ⟨500⟩) 5).1 ⟨500⟩ rfl).2 (by decide),
   by
     have := (get_repo_commits_empty_repo_and_propagate
       (.ok [⟨"r", "m", "a", 0, "u"⟩]) 0).2 [⟨"r", "m", "a", 0, "u"⟩] rfl
     simpa using this⟩

/-! ## Default export filenames (`get_default_filename`) -/

/-- Two-digit zero padding, as produced by `strftime` for `%m` and `%d`. -/
def pad2 (n : Nat) : String :=
  if n < 10 then "0" ++ toString n else toString n

/-- Four-digit zero padding, as produced by `strftime` for `%Y`. -/
def pad4 (n : Nat) : String :=
  if n < 10 then "000" ++ toString n
  else if n < 100 then "00" ++ toString n
  else if n < 1000 then "0" ++ toString n
  else toString n

/-- `datetime.now().strftime("%Y%m%d")` for a given calendar date. -/
def strftime_yyyymmdd (year month day : Nat) : String :=
  pad4 year ++ pad2 month ++ pad2 day

/-- Embedding of `get_default_filename` (`app/cli.py`, lines 70-81): the
f-string `"{today}_{file_type}_{username}.csv"` where `today` is the
current date formatted `%Y%m%d` and `username` is the identity login. -/
def get_default_filename (year month day : Nat) (file_type username : String) :
    String :=
  strftime_yyyymmdd year month day ++ "_" ++ file_type ++ "_" ++ username ++ ".csv"

/-- C7: the default export filename is exactly
`{YYYYMMDD}_{category}_{username}.csv`; in particular for category
"starred_repos", username "testuser" and date 2025-01-03 it is
"20250103_starred_repos_testuser.csv". -/
theorem get_default_filename_format :
    (∀ (year month day : Nat) (category username : String),
        get_default_filename year month day category username
          = strftime_yyyymmdd year month day ++ "_" ++ category ++ "_"
              ++ username ++ ".csv") ∧
    get_default_filename 2025 1 3 "starred_repos" "testuser"
      = "20250103_starred_repos_testuser.csv" := by
  constructor
  · intro year month day category username
    rfl
  · decide

/-! ## Starred repositories (`get_starred_repos`) -/

/-- One row of the starred-repositories dataframe built by
`get_starred_repos`. -/
structure StarredRecord where
  name : String
  owner : String
  language : String
  stars : Nat
  forks : Nat
  url : String
  description : Option String
deriving DecidableEq, Repr

/-- Python `x or default` for an optional string `x`: `None` and the empty
string are falsy, so both fall through to `default`. -/
def py_or_string (x : Option String) (default : String) : String :=
  match x with
  | none => default
  | some s => if s = "" then default else s

/-- Embedding of the per-repository record built inside
`GithubRepoManager.get_starred_repos` (`app/github_repo_manager.py`,
lines 131-146): `"language": repo.language or "Unknown"` plus the other
verbatim fields. -/
def starred_record (r : Repo) : StarredRecord :=
  { name := r.name
    owner := r.owner_login
    language := py_or_string r.language "Unknown"
    stars := r.stargazers_count
    forks := r.forks_count
    url := r.html_url
    description := r.description }

/-- Embedding of `GithubRepoManager.get_starred_repos`: the dataframe rows,
in order, for the starred repositories returned by the client. -/
def get_starred_repos (starred : List Repo) : List StarredRecord :=
  starred.map starred_record

/-- A sample starred repository whose `language` is present but empty. -/
def emptyLangRepo : Repo :=
  { name := "r", owner_login := "o", priv := false, fork := false,
    archived := false, language := some "", stargazers_count := 0,
    forks_count := 0, updated_at := 0, html_url := "u", description := none }

/-- C9 counterexample: a starred repository whose `language` field is
present (the empty string) is exported with language "Unknown", not with
its own language, because Python `or` treats the empty string as falsy.
So the claim "the language field equals the repository's language when one
is present" is false at this input. -/
theorem starred_language_present_not_preserved :
    emptyLangRepo.language = some "" ∧
    get_starred_repos [emptyLangRepo]
      = [{ name := "r", owner := "o", language := "Unknown", stars := 0,
           forks := 0, url := "u", description := none }] ∧
    ¬ (starred_record emptyLangRepo).language = "" := by
  refine ⟨rfl, rfl, by decide⟩

/-- C9 (amended): the exported language equals the repository's language
when it is present and non-empty, and equals the literal "Unknown" when it
is absent or empty; no record ever carries an empty (or absent) language. -/
theorem starred_language_defaulting (r : Repo) :
    (∀ s : String, r.language = some s → s ≠ "" →
        (starred_record r).language = s) ∧
    ((r.language = none ∨ r.language = some "") →
        (starred_record r).language = "Unknown") ∧
    (starred_record r).language ≠ "" ∧
    (∀ l : List Repo, get_starred_repos l = l.map starred_record) := by
  refine ⟨?_, ?_, ?_, fun l => rfl⟩
  · intro s hs hne
    simp [starred_record, py_or_string, hs, hne]
  · rintro (h | h) <;> simp [starred_record, py_or_string, h]
  · rcases hl : r.language with _ | s
    · simp [starred_record, py_or_string, hl]
    · by_cases hs : s = "" <;> simp [starred_record, py_or_string, hl, hs]

/-- A sample starred repository whose `language` is the string "Python". -/
def pythonLangRepo : Repo :=
  { name := "r", owner_login := "o", priv := false, fork := false,
    archived := false, language := some "Python", stargazers_count := 0,
    forks_count := 0, updated_at := 0, html_url := "u", description := none }

/-- A sample starred repository with no `language`. -/
def noLangRepo : Repo :=
  { name := "r", owner_login := "o", priv := false, fork := false,
    archived := false, language := none, stargazers_count := 0,
    forks_count := 0, updated_at := 0, html_url := "u", description := none }

/-- Witness for C9 (amended) at concrete repositories. -/
theorem starred_language_defaulting_witness :
    (starred_record pythonLangRepo).language = "Python" ∧
    (starred_record noLangRepo).language = "Unknown" :=
  ⟨(starred_language_defaulting _).1 "Python" rfl (by decide),
   (starred_language_defaulting _).2.1 (Or.inl rfl)⟩

/-! ## The stable descending sort by last update

`sorted(self.all_repos, key=lambda r: r.updated_at, reverse=True)` and the
client-side `get_repos(sort="updated", direction="desc")` both order by
last-update descending; Python's sort is stable.  `List.insertionSort`
with the non-strict descending relation is a stable descending sort, so it
computes the same list. -/

/-- The descending order on last-update timestamps. -/
def updatedDesc (a b : Repo) : Prop := b.updated_at ≤ a.updated_at

instance : DecidableRel updatedDesc :=
  fun a b => inferInstanceAs (Decidable (b.updated_at ≤ a.updated_at))

instance : IsTotal Repo updatedDesc :=
  ⟨fun a b => Nat.le_total b.updated_at a.updated_at⟩

instance : IsTrans Repo updatedDesc :=
  ⟨fun _ _ _ hab hbc => Nat.le_trans hbc hab⟩

/-- Python's stable sort by `updated_at` descending. -/
def pySortByUpdatedDesc (l : List Repo) : List Repo :=
  List.insertionSort updatedDesc l

/-! ## Adapter state and the create/delete operations -/

/-- The repositories currently visible to the identity on the hosting
service (the modelled remote side of the client calls). -/
structure Server where
  repos : List Repo
deriving DecidableEq, Repr

/-- The adapter's in-memory state: `self.all_repos`. -/
structure ManagerState where
  all_repos : List Repo
deriving DecidableEq, Repr

/-- `self.user.get_repos(type="all", sort="updated", direction="desc")`:
the service returns the visible repositories sorted by last-update
descending. -/
def fetch_repos (server : Server) : List Repo :=
  pySortByUpdatedDesc server.repos

/-- `GithubRepoManager.__init__`: the repository list is fetched once at
construction. -/
def init_manager (server : Server) : ManagerState :=
  ⟨fetch_repos server⟩

/-- Embedding of `GithubRepoManager.refresh_repos`
(`app/github_repo_manager.py`, lines 126-129): re-fetch the full list. -/
def refresh_repos (server : Server) : ManagerState :=
  ⟨fetch_repos server⟩

/-- The 404 failure raised by `user.get_repo` for a missing repository. -/
def github_404 : GithubEx := ⟨404⟩

/-- `self.user.get_repo(repo_name)`: look the repository up by name,
raising a 404 `GithubException` when it does not exist. -/
def user_get_repo (server : Server) (name : String) : Except GithubEx Repo :=
  match server.repos.find? (fun r => r.name == name) with
  | some r => Except.ok r
  | none => Except.error github_404

/-- `repo.delete()`: the service removes the named repository. -/
def server_delete (server : Server) (name : String) : Server :=
  ⟨server.repos.filter (fun r => r.name != name)⟩

/-- Embedding of `GithubRepoManager.delete_repo`
(`app/github_repo_manager.py`, lines 121-124): look up the repository,
delete it on the service, then call `refresh_repos`. -/
def delete_repo (server : Server) (_st : ManagerState) (name : String) :
    Except GithubEx (Server × ManagerState) :=
  match user_get_repo server name with
  | Except.error e => Except.error e
  | Except.ok _ =>
    let server2 := server_delete server name
    Except.ok (server2, refresh_repos server2)

/-- The service appends the newly created repository. -/
def server_create (server : Server) (r : Repo) : Server :=
  ⟨server.repos ++ [r]⟩

/-- Embedding of the state effect of `GithubRepoManager.create_repo`
(`app/github_repo_manager.py`, lines 148-170): the repository is created
on the service and returned, and `self.all_repos` is left untouched — the
method contains no call to `refresh_repos`. -/
def create_repo_state (server : Server) (st : ManagerState) (r : Repo) :
    Server × ManagerState × Repo :=
  (server_create server r, st, r)

/-- C2 counterexample: starting from an empty account, creating a
repository leaves the adapter's in-memory list empty even though a fresh
fetch from the service would return the new repository — `create_repo`
does not re-fetch the list. -/
theorem create_does_not_refresh_counterexample :
    (create_repo_state ⟨[]⟩ (init_manager ⟨[]⟩) noLangRepo).2.1.all_repos = [] ∧
    fetch_repos (create_repo_state ⟨[]⟩ (init_manager ⟨[]⟩) noLangRepo).1
      = [noLangRepo] ∧
    (create_repo_state ⟨[]⟩ (init_manager ⟨[]⟩) noLangRepo).2.1.all_repos
      ≠ fetch_repos (create_repo_state ⟨[]⟩ (init_manager ⟨[]⟩) noLangRepo).1 := by
  refine ⟨rfl, rfl, by decide⟩

/-- C2 (amended): after every successful delete the in-memory list is
re-fetched from the service (so subsequent reads reflect the deletion),
while a create operation leaves the adapter state exactly as it was; reads
never modify the state (they are pure functions of it in this model). -/
theorem delete_refreshes_create_does_not
    (server : Server) (st : ManagerState) (name : String) :
    (∀ (server2 : Server) (st2 : ManagerState),
        delete_repo server st name = Except.ok (server2, st2) →
          st2 = refresh_repos server2 ∧ st2.all_repos = fetch_repos server2) ∧
    (∀ r : Repo, (create_repo_state server st r).2.1 = st) := by
  constructor
  · intro server2 st2 h
    unfold delete_repo at h
    cases hu : user_get_repo server name with
    | error e => rw [hu] at h; exact absurd h (by simp)
    | ok rp =>
      rw [hu] at h
      simp only [Except.ok.injEq, Prod.mk.injEq] at h
      obtain ⟨h1, h2⟩ := h
      subst h1; subst h2
      exact ⟨rfl, rfl⟩
  · intro r; rfl

/-- Witness for C2 (amended): a concrete successful delete and a concrete
create. -/
theorem delete_refreshes_create_does_not_witness :
    ((⟨[]⟩ : ManagerState) = refresh_repos ⟨[]⟩ ∧
      (⟨[]⟩ : ManagerState).all_repos = fetch_repos ⟨[]⟩) ∧
    (create_repo_state ⟨[]⟩ (init_manager ⟨[]⟩) noLangRepo).2.1
      = init_manager ⟨[]⟩ :=
  ⟨(delete_refreshes_create_does_not ⟨[noLangRepo]⟩
      (init_manager ⟨[noLangRepo]⟩) "r").1 ⟨[]⟩ ⟨[]⟩ rfl,
   (delete_refreshes_create_does_not ⟨[]⟩ (init_manager ⟨[]⟩) "x").2 noLangRepo⟩

/-! ## The request payload of `create_repo` -/

/-- A Python value placed in the `kwargs` dictionary passed to the client's
`create_repo` call: a string, a boolean, or `None`. -/
inductive PyValue where
  | vstr (s : String)
  | vbool (b : Bool)
  | vnone
deriving DecidableEq, Repr

/-- An optional string as a Python value (`None` stays `None`). -/
def opt_to_value : Option String → PyValue
  | none => PyValue.vnone
  | some s => PyValue.vstr s

/-- Python truthiness of an optional string: `None` and `""` are falsy. -/
def pytruthy_opt_str : Option String → Bool
  | none => false
  | some s => s != ""

/-- Embedding of the `kwargs` construction in
`GithubRepoManager.create_repo` (`app/github_repo_manager.py`,
lines 148-170): `name`, `description`, `private` and `auto_init` are always
placed in the dictionary (with `description` possibly `None`), while
`gitignore_template` and `license_template` are added only when truthy. -/
def create_repo_kwargs (name : String) (description : Option String)
    (priv auto_init : Bool) (gitignore_template license_template : Option String) :
    List (String × PyValue) :=
  let kwargs := [("name", PyValue.vstr name),
                 ("description", opt_to_value description),
                 ("private", PyValue.vbool priv),
                 ("auto_init", PyValue.vbool auto_init)]
  let kwargs := if pytruthy_opt_str gitignore_template then
      kwargs ++ [("gitignore_template", opt_to_value gitignore_template)]
    else kwargs
  let kwargs := if pytruthy_opt_str license_template then
      kwargs ++ [("license_template", opt_to_value license_template)]
    else kwargs
  kwargs

/-- C3 counterexample: when no optional field is supplied, the request still
contains `description` with the null value and `auto_init` with `False`
— these fields are not omitted; only the two template fields are. -/
theorem create_repo_kwargs_sends_null_description :
    (create_repo_kwargs "new-repo" none false false none none).lookup "description"
      = some PyValue.vnone ∧
    (create_repo_kwargs "new-repo" none false false none none).lookup "auto_init"
      = some (PyValue.vbool false) ∧
    (create_repo_kwargs "new-repo" none false false none none).lookup "gitignore_template"
      = none ∧
    (create_repo_kwargs "new-repo" none false false none none).lookup "license_template"
      = none := by
  decide

/-- C3 (amended): `name`, `description`, `private` and `auto_init` are
always forwarded — `description` as null when not supplied — while
`gitignore_template` and `license_template` are forwarded with their given
values exactly when supplied and non-empty (Python-truthy) and omitted
otherwise. -/
theorem create_repo_kwargs_fields (name : String) (description : Option String)
    (priv auto_init : Bool) (g l : Option String) :
    (create_repo_kwargs name description priv auto_init g l).lookup "name"
        = some (PyValue.vstr name) ∧
    (create_repo_kwargs name description priv auto_init g l).lookup "description"
        = some (opt_to_value description) ∧
    (create_repo_kwargs name description priv auto_init g l).lookup "private"
        = some (PyValue.vbool priv) ∧
    (create_repo_kwargs name description priv auto_init g l).lookup "auto_init"
        = some (PyValue.vbool auto_init) ∧
    (pytruthy_opt_str g = true →
      (create_repo_kwargs name description priv auto_init g l).lookup "gitignore_template"
        = some (opt_to_value g)) ∧
    (pytruthy_opt_str g = false →
      (create_repo_kwargs name description priv auto_init g l).lookup "gitignore_template"
        = none) ∧
    (pytruthy_opt_str l = true →
      (create_repo_kwargs name description priv auto_init g l).lookup "license_template"
        = some (opt_to_value l)) ∧
    (pytruthy_opt_str l = false →
      (create_repo_kwargs name description priv auto_init g l).lookup "license_template"
        = none) := by
  by_cases hg : pytruthy_opt_str g = true <;>
    by_cases hl : pytruthy_opt_str l = true <;>
      simp [create_repo_kwargs, List.lookup, hg, hl]

/-- Witness for C3 (amended) at a concrete call. -/
theorem create_repo_kwargs_fields_witness :
    (create_repo_kwargs "n" (some "d") true true (some "Python") none).lookup
        "gitignore_template" = some (PyValue.vstr "Python") ∧
    (create_repo_kwargs "n" (some "d") true true (some "Python") none).lookup
        "license_template" = none ∧
    (create_repo_kwargs "n" (some "d") true true (some "Python") none).lookup
        "description" = some (PyValue.vstr "d") :=
  ⟨(create_repo_kwargs_fields "n" (some "d") true true (some "Python") none).2.2.2.2.1
      (by decide),
   (create_repo_kwargs_fields "n" (some "d") true true (some "Python") none).2.2.2.2.2.2.2
      (by decide),
   (create_repo_kwargs_fields "n" (some "d") true true (some "Python") none).2.1⟩

/-! ## The CLI list command -/

/-- Python true division, which raises `ZeroDivisionError` when the divisor
is zero.  The finite float value is modelled as an exact rational; only
definedness matters for the property proved here. -/
def py_div (a b : ℚ) : Except String ℚ :=
  if b = 0 then Except.error "division by zero" else Except.ok (a / b)

/-- Embedding of the body of the `list` action in `main`
(`app/cli.py`, lines 359-373): count the repositories, compute the public
and private percentages (each a true division by `total_count`), and build
the listing lines (name, description, visibility).  Any raised exception
escapes as an `Except.error`. -/
def list_body (repos : List Repo) :
    Except String (ℚ × ℚ × List (String × Option String × Bool)) := do
  let total_count := repos.length
  let private_count := (repos.filter (fun r => r.priv)).length
  let public_count := total_count - private_count
  let pub_frac ← py_div (public_count : ℚ) (total_count : ℚ)
  let priv_frac ← py_div (private_count : ℚ) (total_count : ℚ)
  pure (pub_frac * 100, priv_frac * 100,
    repos.map (fun r => (r.name, r.description, r.priv)))

/-- The command-boundary handler of the `list` action: the try/except
around the body prints the error and exits 1; on success the action exits
0 (`app/cli.py`, lines 359-376). -/
def list_command (repos : List Repo) : Nat :=
  match list_body repos with
  | Except.ok _ => 0
  | Except.error _ => 1

/-- C10: with an empty repository list the percentage computation divides
by the zero total count; the division-by-zero error is caught at the
command boundary and the process exits with code 1, and no listing is
produced. -/
theorem list_command_empty_exits_one :
    list_body ([] : List Repo) = Except.error "division by zero" ∧
    list_command ([] : List Repo) = 1 := by
  constructor <;> rfl

/-! ## Recent repositories (`get_recent_repos`) -/

/-- Embedding of `GithubRepoManager.get_recent_repos`
(`app/github_repo_manager.py`, lines 109-110):
`sorted(self.all_repos, key=lambda r: r.updated_at, reverse=True)[:limit]`. -/
def get_recent_repos (all_repos : List Repo) (limit : Nat) : List Repo :=
  (pySortByUpdatedDesc all_repos).take limit

/-- A repository with last-update timestamp 5. -/
def tieRepoA : Repo :=
  { name := "a", owner_login := "o", priv := false, fork := false,
    archived := false, language := none, stargazers_count := 0,
    forks_count := 0, updated_at := 5, html_url := "", description := none }

/-- A second, distinct repository with the same last-update timestamp 5. -/
def tieRepoB : Repo :=
  { name := "b", owner_login := "o", priv := false, fork := false,
    archived := false, language := none, stargazers_count := 0,
    forks_count := 0, updated_at := 5, html_url := "", description := none }

/-- C8 counterexample: with two repositories sharing a last-update
timestamp, the stable sort keeps the stored order, so two permutations of
the stored list give different `get_recent_repos` results — the result is
not the same for every permutation of the stored list. -/
theorem get_recent_repos_perm_dependent :
    List.Perm [tieRepoA, tieRepoB] [tieRepoB, tieRepoA] ∧
    get_recent_repos [tieRepoA, tieRepoB] 2 = [tieRepoA, tieRepoB] ∧
    get_recent_repos [tieRepoB, tieRepoA] 2 = [tieRepoB, tieRepoA] ∧
    get_recent_repos [tieRepoA, tieRepoB] 2
      ≠ get_recent_repos [tieRepoB, tieRepoA] 2 := by
  refine ⟨by decide, by decide, by decide, by decide⟩

/-- C8 (amended): `get_recent_repos` returns the first `limit` entries of
the stored list stably sorted by last-update descending; the result is a
prefix of a sorted permutation of the stored list, and it is the same for
every permutation of the stored list provided the last-update timestamps
are pairwise distinct. -/
theorem get_recent_repos_take_sorted_and_perm_invariant
    (l₁ l₂ : List Repo) (limit : Nat) :
    get_recent_repos l₁ limit = (pySortByUpdatedDesc l₁).take limit ∧
    (pySortByUpdatedDesc l₁).Perm l₁ ∧
    List.Pairwise updatedDesc (get_recent_repos l₁ limit) ∧
    (l₁.Perm l₂ → l₁.Pairwise (fun a b => a.updated_at ≠ b.updated_at) →
      get_recent_repos l₁ limit = get_recent_repos l₂ limit) := by
  refine ⟨rfl, List.perm_insertionSort updatedDesc l₁, ?_, ?_⟩
  · exact List.Pairwise.sublist (List.take_sublist limit _)
      (List.sorted_insertionSort updatedDesc l₁)
  · intro hperm hdist
    have h₁ : (pySortByUpdatedDesc l₁).Perm l₁ :=
      List.perm_insertionSort updatedDesc l₁
    have h₂ : (pySortByUpdatedDesc l₂).Perm l₂ :=
      List.perm_insertionSort updatedDesc l₂
    have hp : (pySortByUpdatedDesc l₁).Perm (pySortByUpdatedDesc l₂) :=
      h₁.trans (hperm.trans h₂.symm)
    have hsym : ∀ {x y : Repo},
        x.updated_at ≠ y.updated_at → y.updated_at ≠ x.updated_at :=
      fun h => Ne.symm h
    have hdist₁ :
        (pySortByUpdatedDesc l₁).Pairwise
          (fun a b => a.updated_at ≠ b.updated_at) :=
      (List.Perm.pairwise_iff hsym h₁).mpr hdist
    have hdist₂ :
        (pySortByUpdatedDesc l₂).Pairwise
          (fun a b => a.updated_at ≠ b.updated_at) :=
      (List.Perm.pairwise_iff hsym (hp.symm.trans h₁)).mpr hdist
    have hs₁ : List.Pairwise updatedDesc (pySortByUpdatedDesc l₁) :=
      List.sorted_insertionSort updatedDesc l₁
    have hs₂ : List.Pairwise updatedDesc (pySortByUpdatedDesc l₂) :=
      List.sorted_insertionSort updatedDesc l₂
    have hst₁ :
        (pySortByUpdatedDesc l₁).Pairwise
          (fun a b => b.updated_at < a.updated_at) :=
      (hs₁.and hdist₁).imp (fun h => lt_of_le_of_ne h.1 (Ne.symm h.2))
    have hst₂ :
        (pySortByUpdatedDesc l₂).Pairwise
          (fun a b => b.updated_at < a.updated_at) :=
      (hs₂.and hdist₂).imp (fun h => lt_of_le_of_ne h.1 (Ne.symm h.2))
    haveI : IsAntisymm Repo (fun a b => b.updated_at < a.updated_at) :=
      ⟨fun _ _ hab hba => absurd hba (Nat.lt_asymm hab)⟩
    have heq : pySortByUpdatedDesc l₁ = pySortByUpdatedDesc l₂ :=
      List.eq_of_perm_of_sorted hp hst₁ hst₂
    unfold get_recent_repos
    rw [heq]

/-- Witness for C8 (amended): two permutations of a two-element list with
distinct timestamps give the same recent listing. -/
theorem get_recent_repos_take_sorted_and_perm_invariant_witness :
    get_recent_repos [noLangRepo, tieRepoA] 1
      = get_recent_repos [tieRepoA, noLangRepo] 1 :=
  (get_recent_repos_take_sorted_and_perm_invariant
      [noLangRepo, tieRepoA] [tieRepoA, noLangRepo] 1).2.2.2
    (by decide) (by decide)

/-! ## The legacy export path and the xlsx-to-csv rewrite

`export_data` and `export_stars` (`app/cli.py`, lines 84-129) write CSV for
format "csv"; for format "xlsx" they print a warning, run
`output.replace('.xlsx', '.csv')` and write CSV to the rewritten path.
Paths are modelled as lists of characters; `replace_xlsx_with_csv` is
Python's `str.replace` specialised to this pattern and replacement: a
left-to-right scan substituting every non-overlapping occurrence. -/

/-- The pattern `'.xlsx'` of the `str.replace` call. -/
def xlsxPat : List Char := ['.', 'x', 'l', 's', 'x']

/-- The replacement `'.csv'` of the `str.replace` call. -/
def csvRep : List Char := ['.', 'c', 's', 'v']

/-- `output.replace('.xlsx', '.csv')`: scan left to right, replacing each
non-overlapping occurrence of the pattern. -/
def replace_xlsx_with_csv : List Char → List Char
  | [] => []
  | c :: rest =>
    if (c :: rest).take 5 = xlsxPat then
      csvRep ++ replace_xlsx_with_csv ((c :: rest).drop 5)
    else
      c :: replace_xlsx_with_csv rest
termination_by l => l.length
decreasing_by
  · simp only [List.length_drop, List.length_cons]
    omega
  · simp only [List.length_cons]
    omega

theorem replace_nil : replace_xlsx_with_csv [] = [] := by
  rw [replace_xlsx_with_csv]

theorem replace_cons (c : Char) (rest : List Char) :
    replace_xlsx_with_csv (c :: rest)
      = if (c :: rest).take 5 = xlsxPat then
          csvRep ++ replace_xlsx_with_csv ((c :: rest).drop 5)
        else
          c :: replace_xlsx_with_csv rest := by
  rw [replace_xlsx_with_csv]

/-- The pattern cannot overlap itself: if the scan matches at the head of
`t ++ xlsxPat` then either `t` is empty or the match lies entirely inside
`t`. -/
theorem take5_of_append_pat (t : List Char)
    (h : (t ++ xlsxPat).take 5 = xlsxPat) : t = [] ∨ 5 ≤ t.length := by
  rcases t with _ | ⟨a, t⟩
  · exact Or.inl rfl
  rcases t with _ | ⟨b, t⟩
  · exfalso; simp [xlsxPat] at h
  rcases t with _ | ⟨c, t⟩
  · exfalso; simp [xlsxPat] at h
  rcases t with _ | ⟨d, t⟩
  · exfalso; simp [xlsxPat] at h
  rcases t with _ | ⟨e, t⟩
  · exfalso; simp [xlsxPat] at h
  · right
    simp only [List.length_cons]
    omega

theorem suffix_of_suffix_append {s a b : List Char}
    (h : s <:+ a ++ b) (hlen : s.length ≤ b.length) : s <:+ b := by
  obtain ⟨t, ht⟩ := h
  have hlt : a.length ≤ t.length := by
    have := congrArg List.length ht
    simp [List.length_append] at this
    omega
  have hs : s = (a ++ b).drop t.length := by
    rw [← ht, List.drop_left]
  have h2 : (a ++ b).drop t.length = b.drop (t.length - a.length) := by
    have he : t.length = a.length + (t.length - a.length) := by omega
    rw [he, List.drop_append]
    congr 1
    omega
  rw [hs, h2]
  exact List.drop_suffix _ _

theorem suffix_append_long {s a b : List Char}
    (h : s <:+ a ++ b) (hlen : b.length < s.length) :
    ∃ s₁, s₁ <:+ a ∧ s = s₁ ++ b := by
  obtain ⟨t, ht⟩ := h
  have hlt : t.length ≤ a.length := by
    have := congrArg List.length ht
    simp [List.length_append] at this
    omega
  have hs : s = (a ++ b).drop t.length := by
    rw [← ht, List.drop_left]
  have h2 : (a ++ b).drop t.length = a.drop t.length ++ b :=
    List.drop_append_of_le_length hlt
  exact ⟨a.drop t.length, List.drop_suffix _ _, by rw [hs, h2]⟩

theorem csv_suffix_replace_aux :
    ∀ (n : Nat) (l : List Char), l.length ≤ n →
      xlsxPat <:+ l → csvRep <:+ replace_xlsx_with_csv l := by
  intro n
  induction n with
  | zero =>
    intro l hl hsuf
    have hnil : l = [] := List.length_eq_zero.mp (Nat.le_zero.mp hl)
    subst hnil
    have := List.suffix_nil.mp hsuf
    exact absurd this (by simp [xlsxPat])
  | succ n ih =>
    intro l hl hsuf
    obtain ⟨t, ht⟩ := hsuf
    rcases l with _ | ⟨c, rest⟩
    · exact absurd (congrArg List.length ht) (by simp [xlsxPat])
    by_cases hm : (c :: rest).take 5 = xlsxPat
    · rw [replace_cons, if_pos hm]
      rcases take5_of_append_pat t (by rw [ht]; exact hm) with h0 | h5
      · subst h0
        simp only [List.nil_append] at ht
        have hdrop : (c :: rest).drop 5 = [] := by rw [← ht]; rfl
        rw [hdrop, replace_nil, List.append_nil]
      · have hdrop : (c :: rest).drop 5 = t.drop 5 ++ xlsxPat := by
          rw [← ht, List.drop_append_of_le_length h5]
        have hsub : xlsxPat <:+ (c :: rest).drop 5 := by
          rw [hdrop]; exact List.suffix_append _ _
        have hlen : ((c :: rest).drop 5).length ≤ n := by
          simp only [List.length_drop, List.length_cons]
          simp only [List.length_cons] at hl
          omega
        exact (ih _ hlen hsub).trans (List.suffix_append _ _)
    · rw [replace_cons, if_neg hm]
      rcases t with _ | ⟨a, t⟩
      · exfalso
        apply hm
        rw [← ht]
        rfl
      · have hrest : t ++ xlsxPat = rest := by
          simp only [List.cons_append, List.cons.injEq] at ht
          exact ht.2
        have hsub : xlsxPat <:+ rest := ⟨t, hrest⟩
        have hlen : rest.length ≤ n := by
          simp only [List.length_cons] at hl
          omega
        exact (ih _ hlen hsub).trans (List.suffix_cons c _)

/-- If the output of the scan contains no dot then no replacement happened
and the input contained none either. -/
theorem replace_no_dot_eq :
    ∀ (n : Nat) (s : List Char), s.length ≤ n →
      ('.' : Char) ∉ replace_xlsx_with_csv s → replace_xlsx_with_csv s = s := by
  intro n
  induction n with
  | zero =>
    intro s hs _
    have hnil : s = [] := List.length_eq_zero.mp (Nat.le_zero.mp hs)
    subst hnil
    exact replace_nil
  | succ n ih =>
    intro s hs hdot
    rcases s with _ | ⟨c, rest⟩
    · exact replace_nil
    by_cases hm : (c :: rest).take 5 = xlsxPat
    · exfalso
      rw [replace_cons, if_pos hm] at hdot
      exact hdot (by simp [csvRep])
    · rw [replace_cons, if_neg hm] at hdot ⊢
      have h1 : ('.' : Char) ∉ replace_xlsx_with_csv rest :=
        fun hmem => hdot (List.mem_cons_of_mem _ hmem)
      have hlen : rest.length ≤ n := by
        simp only [List.length_cons] at hs
        omega
      rw [ih rest hlen h1]

theorem not_xlsx_suffix_replace_aux :
    ∀ (n : Nat) (l : List Char), l.length ≤ n →
      ¬ (xlsxPat <:+ replace_xlsx_with_csv l) := by
  intro n
  induction n with
  | zero =>
    intro l hl hsuf
    have hnil : l = [] := List.length_eq_zero.mp (Nat.le_zero.mp hl)
    subst hnil
    rw [replace_nil] at hsuf
    exact absurd (List.suffix_nil.mp hsuf) (by simp [xlsxPat])
  | succ n ih =>
    intro l hl hsuf
    rcases l with _ | ⟨c, rest⟩
    · rw [replace_nil] at hsuf
      exact absurd (List.suffix_nil.mp hsuf) (by simp [xlsxPat])
    by_cases hm : (c :: rest).take 5 = xlsxPat
    · rw [replace_cons, if_pos hm] at hsuf
      have hlenF : ((c :: rest).drop 5).length ≤ n := by
        simp only [List.length_drop, List.length_cons]
        simp only [List.length_cons] at hl
        omega
      by_cases hlen :
          xlsxPat.length ≤ (replace_xlsx_with_csv ((c :: rest).drop 5)).length
      · exact ih _ hlenF (suffix_of_suffix_append hsuf hlen)
      · push_neg at hlen
        obtain ⟨s₁, hs₁a, hs₁b⟩ := suffix_append_long hsuf hlen
        obtain ⟨u, hu⟩ := hs₁a
        have hus : s₁ = csvRep.drop u.length := by
          rw [← hu, List.drop_left]
        have hul : u.length ≤ 4 := by
          have := congrArg List.length hu
          simp [csvRep] at this
          omega
        have hcases : u.length = 0 ∨ u.length = 1 ∨ u.length = 2 ∨
            u.length = 3 ∨ u.length = 4 := by omega
        rcases hcases with h | h | h | h | h
        · rw [h, show csvRep.drop 0 = ['.', 'c', 's', 'v'] from rfl] at hus
          subst hus
          simp [xlsxPat] at hs₁b
        · rw [h, show csvRep.drop 1 = ['c', 's', 'v'] from rfl] at hus
          subst hus
          simp [xlsxPat] at hs₁b
        · rw [h, show csvRep.drop 2 = ['s', 'v'] from rfl] at hus
          subst hus
          simp [xlsxPat] at hs₁b
        · rw [h, show csvRep.drop 3 = ['v'] from rfl] at hus
          subst hus
          simp [xlsxPat] at hs₁b
        · rw [h, show csvRep.drop 4 = [] from rfl] at hus
          subst hus
          have := congrArg List.length hs₁b
          simp [xlsxPat] at this hlen
          omega
    · rw [replace_cons, if_neg hm] at hsuf
      have hlenrest : rest.length ≤ n := by
        simp only [List.length_cons] at hl
        omega
      by_cases hlen : xlsxPat.length ≤ (replace_xlsx_with_csv rest).length
      · have hsuf2 : xlsxPat <:+ [c] ++ replace_xlsx_with_csv rest := by
          simpa using hsuf
        exact ih _ hlenrest (suffix_of_suffix_append hsuf2 hlen)
      · push_neg at hlen
        obtain ⟨t, ht⟩ := hsuf
        have ht0 : t = [] := by
          have := congrArg List.length ht
          simp [xlsxPat] at this hlen
          have hFlen := List.IsSuffix.length_le (⟨t, ht⟩ :
            xlsxPat <:+ c :: replace_xlsx_with_csv rest)
          simp [xlsxPat] at hFlen
          exact List.length_eq_zero.mp (by omega)
        subst ht0
        simp only [List.nil_append] at ht
        have hc : c = '.' := by
          simp [xlsxPat] at ht
          exact ht.1.symm
        have hFv : replace_xlsx_with_csv rest = ['x', 'l', 's', 'x'] := by
          simp [xlsxPat] at ht
          exact ht.2.symm
        have hnd : ('.' : Char) ∉ replace_xlsx_with_csv rest := by
          rw [hFv]; decide
        have hre : replace_xlsx_with_csv rest = rest :=
          replace_no_dot_eq n rest hlenrest hnd
        have hrest : rest = ['x', 'l', 's', 'x'] := by rw [← hre, hFv]
        apply hm
        rw [hc, hrest]
        rfl

/-- If the path ends with `.xlsx`, the rewritten path ends with `.csv`. -/
theorem csv_suffix_replace (l : List Char) (h : xlsxPat <:+ l) :
    csvRep <:+ replace_xlsx_with_csv l :=
  csv_suffix_replace_aux l.length l le_rfl h

/-- The rewritten path never ends with `.xlsx`. -/
theorem not_xlsx_suffix_replace (l : List Char) :
    ¬ (xlsxPat <:+ replace_xlsx_with_csv l) :=
  not_xlsx_suffix_replace_aux l.length l le_rfl

/-- Embedding of the format dispatch of `export_data` (`app/cli.py`,
lines 84-105): the written file as `(path, content format)` (or nothing for
an unrecognised format) together with whether the warning was printed. -/
def export_data_write (format : String) (output : List Char) :
    Option (List Char × String) × Bool :=
  if format = "csv" then (some (output, "csv"), false)
  else if format = "xlsx" then
    (some (replace_xlsx_with_csv output, "csv"), true)
  else (none, false)

/-- Embedding of the format dispatch of `export_stars` (`app/cli.py`,
lines 108-129), identical to that of `export_data`. -/
def export_stars_write (use_format : String) (output : List Char) :
    Option (List Char × String) × Bool :=
  if use_format = "csv" then (some (output, "csv"), false)
  else if use_format = "xlsx" then
    (some (replace_xlsx_with_csv output, "csv"), true)
  else (none, false)

/-- C4 counterexample: requesting xlsx export with output path "data.txt"
writes CSV content to the unchanged path "data.txt", whose extension is not
".csv" — so the written file does not always have extension ".csv". -/
theorem export_xlsx_txt_counterexample :
    export_data_write "xlsx" "data.txt".toList
      = (some ("data.txt".toList, "csv"), true) ∧
    ¬ (csvRep <:+ "data.txt".toList) := by
  constructor
  · simp [export_data_write, replace_xlsx_with_csv, xlsxPat]
  · decide

/-- C4 (amended): requesting xlsx export through the legacy path emits the
warning, replaces every occurrence of ".xlsx" in the output path by ".csv"
and writes CSV content; the written path never ends with ".xlsx", and it
ends with ".csv" whenever the requested output path ended with ".xlsx";
`export_stars` behaves identically to `export_data`. -/
theorem export_xlsx_warns_and_rewrites (output : List Char) :
    export_data_write "xlsx" output
        = (some (replace_xlsx_with_csv output, "csv"), true) ∧
    export_stars_write "xlsx" output = export_data_write "xlsx" output ∧
    (∀ (p : List Char) (fmt : String),
        (export_data_write "xlsx" output).1 = some (p, fmt) →
          fmt = "csv" ∧ ¬ (xlsxPat <:+ p) ∧
            (xlsxPat <:+ output → csvRep <:+ p)) := by
  refine ⟨rfl, rfl, ?_⟩
  intro p fmt h
  have h2 : (export_data_write "xlsx" output).1
      = some (replace_xlsx_with_csv output, "csv") := rfl
  rw [h2, Option.some.injEq, Prod.mk.injEq] at h
  obtain ⟨hp, hf⟩ := h
  subst hp
  subst hf
  exact ⟨rfl, not_xlsx_suffix_replace output,
    fun hx => csv_suffix_replace output hx⟩

/-- Witness for C4 (amended) at the concrete output path "repos.xlsx",
whose rewritten path is "repos.csv". -/
theorem export_xlsx_warns_and_rewrites_witness :
    ("csv" : String) = "csv" ∧ ¬ (xlsxPat <:+ "repos.csv".toList) ∧
      (xlsxPat <:+ "repos.xlsx".toList → csvRep <:+ "repos.csv".toList) :=
  (export_xlsx_warns_and_rewrites ("repos.xlsx".toList)).2.2
    ("repos.csv".toList) "csv"
    (by simp [export_data_write, replace_xlsx_with_csv, xlsxPat, csvRep])
